import Mathlib

/-!
# Verification of the test-automation framework's utility layer

A shallow embedding, in Lean 4, of the pieces of the repository that its
specification makes checkable claims about:

* `automation/utils/test_data.py` — credential persistence
  (`save_credentials` / `load_credentials`) and `generate_unique_email`;
* `automation/utils/config.py` — the `Settings` object built from
  environment variables, and `ensure_directories`;
* `conftest.py` — the failure-capture hook `pytest_runtest_makereport`
  (the second, effective definition: Python rebinding shadows the first),
  the `credentials_file` fixture, and the browser/context/page fixture
  lifecycle.

Modelling conventions:

* The filesystem, as seen by the credentials code, maps a path to the file's
  content; content is recorded at the level the `json` library exposes it —
  either a JSON value the library parses, or text it rejects.  The pair
  `json.dumps` / `json.loads` of Python's standard library is modelled as the
  identity on JSON values (the library guarantees this round trip).
* Python exceptions are `Except` errors; an exception kind is an explicit
  constructor.
* Directory state, for `ensure_directories`, maps a path (a list of
  components) to whether the directory exists; `Path.mkdir(parents=True)`
  creates every prefix of the path.
* Environment variables are a partial map `String → Option String`;
  `os.getenv(k, d)` is total lookup with default.
-/

/-- A JSON value, as produced by Python's `json.loads`: strings, integers,
booleans, null, arrays, and objects (association lists of string keys, a
later duplicate key overriding an earlier one, as in Python's `dict`). -/
inductive JVal
  | jstr (s : String)
  | jnum (n : Int)
  | jbool (b : Bool)
  | jnull
  | jarr (xs : List JVal)
  | jobj (kvs : List (String × JVal))

/-- What a file's text looks like through `json.loads`: either text that
parses to a JSON value, or text the parser rejects. -/
inductive FileText
  | jsonText (v : JVal)
  | badText

/-- The filesystem as the credentials code sees it: `none` is an absent
file (`read_text` raises `FileNotFoundError`). -/
def FileSys := String → Option FileText

/-- A Python exception raised on the `load_credentials` path. -/
inductive PyErr
  | fileNotFound
  | jsonDecodeError
  | typeError
  | keyError (k : String)
deriving DecidableEq

/-- Lookup in a Python `dict` built by `json.loads` from an object's
key/value list: a later duplicate key wins. -/
def dictLookup (kvs : List (String × JVal)) (k : String) : Option JVal :=
  match kvs with
  | [] => none
  | (k', v) :: rest =>
    match dictLookup rest k with
    | some w => some w
    | none => if k' = k then some v else none

/-- `save_credentials(file_path, email, password)` from
`automation/utils/test_data.py`: `file_path.write_text(json.dumps({"email":
email, "password": password}, ...))` — overwrites the target path with a
two-key JSON object. -/
def save_credentials (fs : FileSys) (file_path email password : String) : FileSys :=
  fun p =>
    if p = file_path then
      some (FileText.jsonText (JVal.jobj [("email", JVal.jstr email), ("password", JVal.jstr password)]))
    else fs p

/-- `load_credentials(file_path)` from `automation/utils/test_data.py`:
`raw = json.loads(file_path.read_text()); return raw["email"],
raw["password"]`.  An absent file raises `FileNotFoundError`, unparseable
text raises `JSONDecodeError`, subscripting a non-object raises `TypeError`,
and a missing key raises `KeyError` (left to right, `"email"` first). -/
def load_credentials (fs : FileSys) (file_path : String) : Except PyErr (JVal × JVal) :=
  match fs file_path with
  | none => .error .fileNotFound
  | some FileText.badText => .error .jsonDecodeError
  | some (FileText.jsonText raw) =>
    match raw with
    | JVal.jobj kvs =>
      match dictLookup kvs "email" with
      | none => .error (.keyError "email")
      | some e =>
        match dictLookup kvs "password" with
        | none => .error (.keyError "password")
        | some p => .ok (e, p)
    | _ => .error .typeError

/-- The resolved path `Path("user_credentials.json").resolve()` used by the
`credentials_file` fixture in `conftest.py` (resolution to an absolute path
is modelled as the identity on the path string). -/
def credentialsFilePath : String := "user_credentials.json"

/-- The `credentials_file` fixture from `conftest.py`: if the file does not
exist, write the stub `json.dumps({"email": "", "password": ""})`; otherwise
leave the filesystem untouched. -/
def credentials_file_fixture (fs : FileSys) : FileSys :=
  match fs credentialsFilePath with
  | none =>
    fun p =>
      if p = credentialsFilePath then
        some (FileText.jsonText (JVal.jobj [("email", JVal.jstr ""), ("password", JVal.jstr "")]))
      else fs p
  | some _ => fs

/-- C1: `save_credentials` then `load_credentials` on the same path is an
identity round trip: the pair read back is exactly the pair written. -/
theorem save_load_roundtrip (fs : FileSys) (path email password : String) :
    load_credentials (save_credentials fs path email password) path
      = .ok (JVal.jstr email, JVal.jstr password) := by
  simp [load_credentials, save_credentials, dictLookup]

/-- C5: `load_credentials` never defaults.  An absent file fails with
`FileNotFoundError`, unparseable text with `JSONDecodeError`, an object
missing `"email"` or `"password"` with the corresponding `KeyError`, and a
pair is returned only when the file holds a JSON object carrying both
keys. -/
theorem load_credentials_no_defaulting (fs : FileSys) (path : String) :
    (fs path = none → load_credentials fs path = .error .fileNotFound) ∧
    (fs path = some FileText.badText →
      load_credentials fs path = .error .jsonDecodeError) ∧
    (∀ kvs, fs path = some (FileText.jsonText (JVal.jobj kvs)) →
      dictLookup kvs "email" = none →
      load_credentials fs path = .error (.keyError "email")) ∧
    (∀ kvs e, fs path = some (FileText.jsonText (JVal.jobj kvs)) →
      dictLookup kvs "email" = some e → dictLookup kvs "password" = none →
      load_credentials fs path = .error (.keyError "password")) ∧
    (∀ e p, load_credentials fs path = .ok (e, p) →
      ∃ kvs, fs path = some (FileText.jsonText (JVal.jobj kvs)) ∧
        dictLookup kvs "email" = some e ∧ dictLookup kvs "password" = some p) := by
  refine ⟨?_, ?_, ?_, ?_, ?_⟩
  · intro h; simp [load_credentials, h]
  · intro h; simp [load_credentials, h]
  · intro kvs h he; simp [load_credentials, h, he]
  · intro kvs e h he hp; simp [load_credentials, h, he, hp]
  · intro e p h
    cases hf : fs path with
    | none => simp [load_credentials, hf] at h
    | some ft =>
      cases ft with
      | badText => simp [load_credentials, hf] at h
      | jsonText raw =>
        cases raw with
        | jobj kvs =>
          refine ⟨kvs, rfl, ?_⟩
          cases he : dictLookup kvs "email" with
          | none => simp [load_credentials, hf, he] at h
          | some e' =>
            cases hp : dictLookup kvs "password" with
            | none => simp [load_credentials, hf, he, hp] at h
            | some p' =>
              simp [load_credentials, hf, he, hp] at h
              rw [h.1, h.2]
              exact ⟨rfl, rfl⟩
        | jstr s => simp [load_credentials, hf] at h
        | jnum n => simp [load_credentials, hf] at h
        | jbool b => simp [load_credentials, hf] at h
        | jnull => simp [load_credentials, hf] at h
        | jarr xs => simp [load_credentials, hf] at h

/-- Witness for C5: on a filesystem with no files, loading fails with
`FileNotFoundError`. -/
theorem load_credentials_no_defaulting_witness :
    load_credentials (fun _ => none) "user_credentials.json" = .error .fileNotFound :=
  (load_credentials_no_defaulting (fun _ => none) "user_credentials.json").1 rfl

/-- C10: when the credentials file is absent, the `credentials_file` fixture
writes the stub `{"email": "", "password": ""}`, after which
`load_credentials` on that path succeeds and returns the pair `("", "")`;
when the file already exists, the fixture leaves the filesystem unchanged. -/
theorem credentials_file_fixture_spec (fs : FileSys) :
    (fs credentialsFilePath = none →
      load_credentials (credentials_file_fixture fs) credentialsFilePath
        = .ok (JVal.jstr "", JVal.jstr "")) ∧
    (∀ ft, fs credentialsFilePath = some ft → credentials_file_fixture fs = fs) := by
  constructor
  · intro h
    simp [credentials_file_fixture, h, load_credentials, dictLookup]
  · intro ft h
    simp [credentials_file_fixture, h]

/-- Witness for C10: starting from an empty filesystem, the fixture's stub
makes `load_credentials` return `("", "")`. -/
theorem credentials_file_fixture_spec_witness :
    load_credentials (credentials_file_fixture (fun _ => none)) credentialsFilePath
      = .ok (JVal.jstr "", JVal.jstr "") :=
  (credentials_file_fixture_spec (fun _ => none)).1 rfl

/-- `generate_unique_email(prefix, domain)` from
`automation/utils/test_data.py`: `suffix = uuid.uuid4().hex[:8]; return
f"{prefix}_{suffix}@{domain}"`.  The fresh UUID's hex digest is the
function's source of randomness, so it is taken as an explicit argument. -/
def generate_unique_email (uuidHex pre domain : String) : String :=
  let suffix := uuidHex.take 8
  pre ++ "_" ++ suffix ++ "@" ++ domain

/-- Two strings built as `p ++ "_" ++ s ++ "@" ++ d` are equal exactly when
their middle parts `s` are equal: `++` on strings cancels on both sides. -/
theorem email_shape_cancel (p d s₁ s₂ : String) :
    p ++ "_" ++ s₁ ++ "@" ++ d = p ++ "_" ++ s₂ ++ "@" ++ d ↔ s₁ = s₂ := by
  constructor
  · intro h
    have hd := congrArg String.data h
    simp only [String.data_append] at hd
    have h1 : (p.data ++ "_".data) ++ s₁.data ++ ("@".data ++ d.data)
        = (p.data ++ "_".data) ++ s₂.data ++ ("@".data ++ d.data) := by
      simpa [List.append_assoc] using hd
    have h2 := List.append_cancel_right h1
    have h3 := List.append_cancel_left h2
    exact String.ext h3
  · intro h; rw [h]

/-- C7: `generate_unique_email` returns `<prefix>_<suffix>@<domain>` with
the suffix drawn from the UUID hex digest (its first 8 characters), and two
calls collide exactly when their UUID-derived suffixes collide: distinct
suffixes give distinct emails. -/
theorem generate_unique_email_spec (pre domain u₁ u₂ : String) :
    generate_unique_email u₁ pre domain = pre ++ "_" ++ u₁.take 8 ++ "@" ++ domain ∧
    (u₁.take 8 ≠ u₂.take 8 →
      generate_unique_email u₁ pre domain ≠ generate_unique_email u₂ pre domain) ∧
    (generate_unique_email u₁ pre domain = generate_unique_email u₂ pre domain →
      u₁.take 8 = u₂.take 8) := by
  refine ⟨rfl, ?_, ?_⟩
  · intro hne h
    exact hne ((email_shape_cancel pre domain (u₁.take 8) (u₂.take 8)).mp h)
  · intro h
    exact (email_shape_cancel pre domain (u₁.take 8) (u₂.take 8)).mp h

/-- Witness for C7: two concrete UUID hex digests with different leading
8 characters yield different email addresses. -/
theorem generate_unique_email_spec_witness :
    ("0123456789abcdef0123456789abcdef" : String).take 8
        ≠ ("fedcba9876543210fedcba9876543210" : String).take 8 ∧
    generate_unique_email "0123456789abcdef0123456789abcdef" "user" "yopmail.com"
      ≠ generate_unique_email "fedcba9876543210fedcba9876543210" "user" "yopmail.com" :=
  ⟨by decide,
   (generate_unique_email_spec "user" "yopmail.com"
      "0123456789abcdef0123456789abcdef" "fedcba9876543210fedcba9876543210").2.1
     (by decide)⟩

/-- The process environment: `os.environ` as a partial map. -/
def Env := String → Option String

/-- `os.getenv(key, default)`: the variable's value when set, else the
default. -/
def getenv (env : Env) (key default : String) : String :=
  (env key).getD default

/-- Continuation of `digitpart`: consume further digits, a single
underscore allowed between two digits (`1_000`), as accepted by Python's
`int()`. -/
def digitpartGo (acc : Nat) : List Char → Option Nat
  | [] => some acc
  | '_' :: c :: rest =>
    if c.isDigit then digitpartGo (acc * 10 + (c.toNat - 48)) rest else none
  | c :: rest =>
    if c.isDigit then digitpartGo (acc * 10 + (c.toNat - 48)) rest else none

/-- The digit part of a Python decimal integer literal: at least one digit,
with single underscores allowed between digits. -/
def digitpart : List Char → Option Nat
  | [] => none
  | c :: rest =>
    if c.isDigit then digitpartGo (c.toNat - 48) rest else none

/-- Python's `str.strip()` as `int()` applies it: drop whitespace from both
ends of the character list. -/
def pyStrip (cs : List Char) : List Char :=
  ((cs.dropWhile Char.isWhitespace).reverse.dropWhile Char.isWhitespace).reverse

/-- Python's `int(s)` on a decimal string: surrounding whitespace is
stripped, an optional sign precedes the digit part; anything else raises
`ValueError` (`none` here). -/
def pyInt (s : String) : Option Int :=
  match pyStrip s.data with
  | '+' :: rest => (digitpart rest).map (fun n => (n : Int))
  | '-' :: rest => (digitpart rest).map (fun n => -(n : Int))
  | rest => (digitpart rest).map (fun n => (n : Int))

/-- Python's `str.lower()` (ASCII case folding, which is all the code
feeds it). -/
def pyLower (s : String) : String := String.mk (s.data.map Char.toLower)

/-- Python's `str.split(sep)` for a one-character separator, on the
character list: splitting never fails and an empty string yields `[""]`. -/
def pySplitCharGo (sep : Char) : List Char → List (List Char)
  | [] => [[]]
  | c :: rest =>
    match pySplitCharGo sep rest with
    | [] => [[]]
    | g :: gs => if c = sep then [] :: g :: gs else (c :: g) :: gs

/-- Python's `s.split(",")` as `Settings.__init__` uses it. -/
def pySplitComma (s : String) : List String :=
  (pySplitCharGo ',' s.data).map String.mk

/-- The `Settings` object of `automation/utils/config.py`, one field per
attribute assigned in `Settings.__init__` (directory paths keep their
string form; `Path.resolve()` is modelled as the identity). -/
structure Settings where
  base_url : String
  api_base_url : String
  download_dir : String
  log_dir : String
  report_dir : String
  credentials_file : String
  browsers : List String
  headless : Bool
  slow_mo : Int
  retry_count : Int
  parallel_workers : Int
  video_recording : Bool
  default_timeout : Int
  navigation_timeout : Int
  api_timeout : Int
  api_retry_count : Int
deriving DecidableEq

/-- `Settings.__init__` from `automation/utils/config.py`, assignments in
source order.  Each `int(os.getenv(K, d))` call raises `ValueError` when the
resolved string is not an integer literal; the first failing call aborts the
construction, which the error names by its variable. -/
def mkSettings (env : Env) : Except String Settings :=
  let base_url := getenv env "BASE_URL" "https://automationexercise.com"
  let api_base_url := base_url ++ "/api"
  let download_dir := getenv env "DOWNLOAD_DIR" "downloads"
  let log_dir := getenv env "LOG_DIR" "logs"
  let report_dir := getenv env "REPORT_DIR" "reports"
  let browsers := pySplitComma (getenv env "BROWSERS" "chromium,firefox")
  let headless := pyLower (getenv env "HEADLESS" "true") == "true"
  match pyInt (getenv env "SLOW_MO" "0") with
  | none => .error "ValueError: SLOW_MO"
  | some slow_mo =>
    match pyInt (getenv env "RETRY_COUNT" "2") with
    | none => .error "ValueError: RETRY_COUNT"
    | some retry_count =>
      match pyInt (getenv env "PARALLEL_WORKERS" "2") with
      | none => .error "ValueError: PARALLEL_WORKERS"
      | some parallel_workers =>
        let video_recording := pyLower (getenv env "VIDEO_RECORDING" "false") == "true"
        match pyInt (getenv env "DEFAULT_TIMEOUT" "30000") with
        | none => .error "ValueError: DEFAULT_TIMEOUT"
        | some default_timeout =>
          match pyInt (getenv env "NAVIGATION_TIMEOUT" "30000") with
          | none => .error "ValueError: NAVIGATION_TIMEOUT"
          | some navigation_timeout =>
            match pyInt (getenv env "API_TIMEOUT" "30000") with
            | none => .error "ValueError: API_TIMEOUT"
            | some api_timeout =>
              match pyInt (getenv env "API_RETRY_COUNT" "3") with
              | none => .error "ValueError: API_RETRY_COUNT"
              | some api_retry_count =>
                .ok {
                  base_url := base_url
                  api_base_url := api_base_url
                  download_dir := download_dir
                  log_dir := log_dir
                  report_dir := report_dir
                  credentials_file := "user_credentials.json"
                  browsers := browsers
                  headless := headless
                  slow_mo := slow_mo
                  retry_count := retry_count
                  parallel_workers := parallel_workers
                  video_recording := video_recording
                  default_timeout := default_timeout
                  navigation_timeout := navigation_timeout
                  api_timeout := api_timeout
                  api_retry_count := api_retry_count
                }

/-- The environment variables `Settings.__init__` feeds to `int()`, with
their default strings. -/
def settingsIntVars : List String :=
  ["SLOW_MO", "RETRY_COUNT", "PARALLEL_WORKERS", "DEFAULT_TIMEOUT",
   "NAVIGATION_TIMEOUT", "API_TIMEOUT", "API_RETRY_COUNT"]

/-- C4: with no environment variables set, the constructed `Settings` has
`base_url = "https://automationexercise.com"`, `default_timeout = 30000`,
`browsers = ["chromium", "firefox"]` and `retry_count = 2`. -/
theorem settings_defaults :
    (mkSettings (fun _ => none)).map Settings.base_url
        = .ok "https://automationexercise.com" ∧
    (mkSettings (fun _ => none)).map Settings.default_timeout = .ok 30000 ∧
    (mkSettings (fun _ => none)).map Settings.browsers
        = .ok ["chromium", "firefox"] ∧
    (mkSettings (fun _ => none)).map Settings.retry_count = .ok 2 :=
  ⟨by rfl, by rfl, by rfl, by rfl⟩

/-- Counterexample to C3: in an environment where `DEFAULT_TIMEOUT` holds
the non-numeric string `"abc"`, constructing `Settings` raises
`ValueError` — `int("abc")` fails — so malformed environment input does
cause an error at configuration time. -/
theorem mkSettings_raises_on_malformed :
    mkSettings (fun k => if k = "DEFAULT_TIMEOUT" then some "abc" else none)
      = .error "ValueError: DEFAULT_TIMEOUT" := by
  rfl

/-- If a variable's default parses as an integer and every value the
environment may hold for it parses as an integer, then the resolved string
fed to `int()` parses. -/
theorem getenv_pyInt_isSome (env : Env) (k d : String)
    (hd : (pyInt d).isSome = true)
    (h : ∀ v, env k = some v → (pyInt v).isSome = true) :
    (pyInt (getenv env k d)).isSome = true := by
  unfold getenv
  cases he : env k with
  | none => simpa using hd
  | some v => simpa using h v he

/-- C3 (amended): constructing `Settings` raises no error for missing
variables — defaults always apply — and succeeds whenever each of the
numeric variables (`SLOW_MO`, `RETRY_COUNT`, `PARALLEL_WORKERS`,
`DEFAULT_TIMEOUT`, `NAVIGATION_TIMEOUT`, `API_TIMEOUT`,
`API_RETRY_COUNT`), when set, holds a valid Python integer literal; but a
malformed (non-numeric) value in one of them makes `int()` raise
`ValueError` at configuration time. -/
theorem mkSettings_ok_of_wellformed (env : Env)
    (h : ∀ k, k ∈ settingsIntVars → ∀ v, env k = some v → (pyInt v).isSome = true) :
    ∃ s, mkSettings env = .ok s := by
  have h1 := getenv_pyInt_isSome env "SLOW_MO" "0" (by rfl)
    (h "SLOW_MO" (by simp [settingsIntVars]))
  have h2 := getenv_pyInt_isSome env "RETRY_COUNT" "2" (by rfl)
    (h "RETRY_COUNT" (by simp [settingsIntVars]))
  have h3 := getenv_pyInt_isSome env "PARALLEL_WORKERS" "2" (by rfl)
    (h "PARALLEL_WORKERS" (by simp [settingsIntVars]))
  have h4 := getenv_pyInt_isSome env "DEFAULT_TIMEOUT" "30000" (by rfl)
    (h "DEFAULT_TIMEOUT" (by simp [settingsIntVars]))
  have h5 := getenv_pyInt_isSome env "NAVIGATION_TIMEOUT" "30000" (by rfl)
    (h "NAVIGATION_TIMEOUT" (by simp [settingsIntVars]))
  have h6 := getenv_pyInt_isSome env "API_TIMEOUT" "30000" (by rfl)
    (h "API_TIMEOUT" (by simp [settingsIntVars]))
  have h7 := getenv_pyInt_isSome env "API_RETRY_COUNT" "3" (by rfl)
    (h "API_RETRY_COUNT" (by simp [settingsIntVars]))
  obtain ⟨n1, e1⟩ := Option.isSome_iff_exists.mp h1
  obtain ⟨n2, e2⟩ := Option.isSome_iff_exists.mp h2
  obtain ⟨n3, e3⟩ := Option.isSome_iff_exists.mp h3
  obtain ⟨n4, e4⟩ := Option.isSome_iff_exists.mp h4
  obtain ⟨n5, e5⟩ := Option.isSome_iff_exists.mp h5
  obtain ⟨n6, e6⟩ := Option.isSome_iff_exists.mp h6
  obtain ⟨n7, e7⟩ := Option.isSome_iff_exists.mp h7
  simp [mkSettings, e1, e2, e3, e4, e5, e6, e7]

/-- Witness for C3's amended theorem: the empty environment satisfies the
well-formedness hypothesis vacuously and construction succeeds. -/
theorem mkSettings_ok_of_wellformed_witness :
    ∃ s, mkSettings (fun _ => none) = .ok s :=
  mkSettings_ok_of_wellformed (fun _ => none) (fun _ _ _v hv => nomatch hv)

/-- A directory path, as the list of its components. -/
def DirPath := List String

/-- Directory state: which directories currently exist. -/
def DirState := DirPath → Bool

/-- `Path.mkdir(parents=True, exist_ok=...)`: raises `FileExistsError` when
the directory exists and `exist_ok` is false; otherwise creates the
directory and every missing ancestor, i.e. every prefix of the path. -/
def mkdirParents (fs : DirState) (p : DirPath) (exist_ok : Bool) :
    Except String DirState :=
  if fs p && !exist_ok then .error "FileExistsError"
  else .ok (fun q => fs q || decide (List.IsPrefix q p))

/-- The directory-creating effect of a successful
`mkdir(parents=True, exist_ok=True)` call. -/
def mkdirParentsOk (fs : DirState) (p : DirPath) : DirState :=
  fun q => fs q || decide (List.IsPrefix q p)

/-- The two directory fields `ensure_directories` touches. -/
structure SettingsDirs where
  download_dir : DirPath
  log_dir : DirPath

/-- `Settings.ensure_directories` from `automation/utils/config.py`:
`self.download_dir.mkdir(parents=True, exist_ok=True);
self.log_dir.mkdir(parents=True, exist_ok=True)`, with the exceptions the
two calls can raise made explicit. -/
def ensure_directoriesE (s : SettingsDirs) (fs : DirState) :
    Except String DirState := do
  let fs1 ← mkdirParents fs s.download_dir true
  mkdirParents fs1 s.log_dir true

/-- The directory state after `ensure_directories`. -/
def ensure_directories (s : SettingsDirs) (fs : DirState) : DirState :=
  mkdirParentsOk (mkdirParentsOk fs s.download_dir) s.log_dir

/-- C9: `ensure_directories` never raises — `exist_ok=True` silences
`FileExistsError` even when the directories already exist — it creates the
download and log directories if absent, and it is idempotent: a second call
leaves the directory state exactly as the first left it. -/
theorem ensure_directories_idempotent (s : SettingsDirs) (fs : DirState) :
    ensure_directoriesE s fs = .ok (ensure_directories s fs) ∧
    ensure_directories s (ensure_directories s fs) = ensure_directories s fs ∧
    ensure_directories s fs s.download_dir = true ∧
    ensure_directories s fs s.log_dir = true := by
  refine ⟨?_, ?_, ?_, ?_⟩
  · simp only [ensure_directoriesE, mkdirParents, ensure_directories, mkdirParentsOk,
      Bool.and_false, Bool.not_true, Bool.false_eq_true, if_false, ite_false,
      Bind.bind, Except.bind]
    rfl
  · funext q
    simp only [ensure_directories, mkdirParentsOk]
    generalize fs q = x
    generalize decide (List.IsPrefix q s.download_dir) = a
    generalize decide (List.IsPrefix q s.log_dir) = b
    cases x <;> cases a <;> cases b <;> rfl
  · simp [ensure_directories, mkdirParentsOk, List.prefix_refl]
  · simp [ensure_directories, mkdirParentsOk, List.prefix_refl]

/-- A pytest test report as the failure-capture hook reads and writes it:
the phase (`report.when`), the verdict (`report.failed`), and the report's
`extra` attachment list used by the HTML plugin. -/
structure Report where
  whenPhase : String
  failed : Bool
  extra : List String
deriving DecidableEq

/-- The test item as the hook reads it: its name, its resolved fixture
values — recorded as fixture names paired with whether the value is a
`Page` instance — and whether `item.config` carries the `_html` report
plugin attribute. -/
structure Item where
  name : String
  funcargs : List (String × Bool)
  hasHtml : Bool
deriving DecidableEq

/-- Fault injection for the capture path: whether each of the five
side-effecting operations inside the hook's `try` block raises. -/
structure CaptureEnv where
  mkdirScreenshotRaises : Bool
  screenshotRaises : Bool
  mkdirSourceRaises : Bool
  writeSourceRaises : Bool
  attachRaises : Bool
deriving DecidableEq

/-- The fault-free capture environment. -/
def captureOk : CaptureEnv := ⟨false, false, false, false, false⟩

/-- The hook's fixture scan: `for name, value in item.funcargs.items(): if
isinstance(value, Page): page = value; break` — does a `Page` fixture
resolve? -/
def findPage (args : List (String × Bool)) : Bool :=
  args.any (fun a => a.2)

/-- The screenshot filename `f"failure_{item.name}_{timestamp}.png"`. -/
def screenshotName (itemName ts : String) : String :=
  "failure_" ++ itemName ++ "_" ++ ts ++ ".png"

/-- The page-source filename `f"source_{item.name}_{timestamp}.html"`. -/
def sourceName (itemName ts : String) : String :=
  "source_" ++ itemName ++ "_" ++ ts ++ ".html"

/-- The body of the hook's `try` block (the second, effective definition of
`pytest_runtest_makereport` in `conftest.py`): find a page fixture; if one
resolved, create the screenshot directory, take the screenshot, create the
page-source directory, write the page source, and append both artifacts to
`report.extra` when the HTML plugin is present.  An `.error` result is a
raised exception, carrying the artifact files already written before the
raise; an `.ok` result carries the files written and the updated report. -/
def captureBody (env : CaptureEnv) (item : Item) (report : Report) (ts : String) :
    Except (List String) (List String × Report) :=
  if findPage item.funcargs then
    if env.mkdirScreenshotRaises then .error []
    else if env.screenshotRaises then .error []
    else if env.mkdirSourceRaises then .error [screenshotName item.name ts]
    else if env.writeSourceRaises then .error [screenshotName item.name ts]
    else if item.hasHtml then
      if env.attachRaises then
        .error [screenshotName item.name ts, sourceName item.name ts]
      else
        .ok ([screenshotName item.name ts, sourceName item.name ts],
          { report with extra := report.extra ++
              ["image:" ++ screenshotName item.name ts,
               "link:" ++ sourceName item.name ts] })
    else
      .ok ([screenshotName item.name ts, sourceName item.name ts], report)
  else .ok ([], report)

/-- The hook's observable outcome: the report it hands back, the artifact
files now on disk, and what was logged.  The hook always returns normally —
there is no exception constructor here, which is the `try/except` of the
source made structural. -/
structure HookResult where
  report : Report
  files : List String
  logs : List String
deriving DecidableEq

/-- `pytest_runtest_makereport` from `conftest.py` (the second definition,
which shadows the first): after the test body, when the report is for the
`call` phase and failed, run the capture body; any exception it raises is
caught and logged as `"Failed to capture failure artifacts"`.  The
timestamp `datetime.now().strftime("%Y%m%d_%H%M%S")` is an argument. -/
def pytest_runtest_makereport (env : CaptureEnv) (item : Item) (report : Report)
    (ts : String) : HookResult :=
  if report.whenPhase = "call" ∧ report.failed = true then
    match captureBody env item report ts with
    | .ok (files, report') =>
      { report := report', files := files,
        logs := if files.isEmpty then [] else
          ["Test failed. Screenshot saved: " ++ screenshotName item.name ts,
           "Page source saved: " ++ sourceName item.name ts] }
    | .error filesSoFar =>
      { report := report, files := filesSoFar,
        logs := ["Failed to capture failure artifacts"] }
  else { report := report, files := [], logs := [] }

/-- The test's name is part of the screenshot filename. -/
theorem name_infix_screenshot (n ts : String) :
    n.data <:+: (screenshotName n ts).data :=
  ⟨"failure_".data, ("_" ++ ts ++ ".png").data, by simp [screenshotName]⟩

/-- The timestamp is part of the screenshot filename. -/
theorem ts_infix_screenshot (n ts : String) :
    ts.data <:+: (screenshotName n ts).data :=
  ⟨("failure_" ++ n ++ "_").data, ".png".data, by simp [screenshotName]⟩

/-- The test's name is part of the page-source filename. -/
theorem name_infix_source (n ts : String) :
    n.data <:+: (sourceName n ts).data :=
  ⟨"source_".data, ("_" ++ ts ++ ".html").data, by simp [sourceName]⟩

/-- The timestamp is part of the page-source filename. -/
theorem ts_infix_source (n ts : String) :
    ts.data <:+: (sourceName n ts).data :=
  ⟨("source_" ++ n ++ "_").data, ".html".data, by simp [sourceName]⟩

/-- C2: with capture operations succeeding, a test that fails in its call
phase and resolves a page fixture makes the hook produce exactly one
screenshot file and one page-source file, both of whose filenames contain
the test's identifier and the timestamp; a passing test produces no files. -/
theorem hook_failure_artifacts (item : Item) (report : Report) (ts : String) :
    (report.whenPhase = "call" → report.failed = true →
      findPage item.funcargs = true →
      (pytest_runtest_makereport captureOk item report ts).files
          = [screenshotName item.name ts, sourceName item.name ts] ∧
        item.name.data <:+: (screenshotName item.name ts).data ∧
        ts.data <:+: (screenshotName item.name ts).data ∧
        item.name.data <:+: (sourceName item.name ts).data ∧
        ts.data <:+: (sourceName item.name ts).data) ∧
    (report.failed = false →
      (pytest_runtest_makereport captureOk item report ts).files = []) := by
  constructor
  · intro hw hf hp
    refine ⟨?_, name_infix_screenshot item.name ts, ts_infix_screenshot item.name ts,
      name_infix_source item.name ts, ts_infix_source item.name ts⟩
    cases hh : item.hasHtml <;>
      simp [pytest_runtest_makereport, hw, hf, captureBody, hp, captureOk, hh]
  · intro hf
    simp [pytest_runtest_makereport, hf]

/-- Witness for C2: a concrete failing call-phase report with a page
fixture yields exactly the screenshot and page-source files. -/
theorem hook_failure_artifacts_witness :
    (pytest_runtest_makereport captureOk ⟨"test_login", [("page", true)], false⟩
        ⟨"call", true, []⟩ "20240101_000000").files
      = [screenshotName "test_login" "20240101_000000",
         sourceName "test_login" "20240101_000000"] :=
  ((hook_failure_artifacts ⟨"test_login", [("page", true)], false⟩
      ⟨"call", true, []⟩ "20240101_000000").1 rfl rfl rfl).1

/-- A successful run of the capture body never changes the report's phase
or verdict: it touches only the `extra` attachment list. -/
theorem captureBody_report_fields (env : CaptureEnv) (item : Item)
    (report : Report) (ts : String) :
    ∀ files r', captureBody env item report ts = .ok (files, r') →
      r'.failed = report.failed ∧ r'.whenPhase = report.whenPhase := by
  intro files r' h
  unfold captureBody at h
  repeat any_goals split at h
  all_goals simp_all
  all_goals simp [← h.2]

/-- C6: in every execution — including any injected exception in the
capture operations — the hook returns normally with the test's phase and
verdict unchanged, and when the capture body raises, the exception is
swallowed and logged as a capture failure, never propagated. -/
theorem hook_preserves_verdict (env : CaptureEnv) (item : Item)
    (report : Report) (ts : String) :
    ((pytest_runtest_makereport env item report ts).report.failed = report.failed ∧
     (pytest_runtest_makereport env item report ts).report.whenPhase
        = report.whenPhase) ∧
    (∀ pf, captureBody env item report ts = .error pf →
      report.whenPhase = "call" → report.failed = true →
      pytest_runtest_makereport env item report ts
        = { report := report, files := pf,
            logs := ["Failed to capture failure artifacts"] }) := by
  constructor
  · unfold pytest_runtest_makereport
    split
    · cases hcb : captureBody env item report ts with
      | ok pr =>
        have := captureBody_report_fields env item report ts pr.1 pr.2 (by rw [hcb])
        simp [hcb, this.1, this.2]
      | error pf => simp [hcb]
    · simp
  · intro pf hcb hw hf
    simp [pytest_runtest_makereport, hw, hf, hcb]

/-- Witness for C6: with the screenshot call raising, the hook still
returns a normal result carrying the unchanged failing verdict and the
capture-failure log line. -/
theorem hook_preserves_verdict_witness :
    pytest_runtest_makereport ⟨false, true, false, false, false⟩
        ⟨"test_login", [("page", true)], false⟩ ⟨"call", true, []⟩ "20240101_000000"
      = { report := ⟨"call", true, []⟩, files := [],
          logs := ["Failed to capture failure artifacts"] } :=
  (hook_preserves_verdict ⟨false, true, false, false, false⟩
      ⟨"test_login", [("page", true)], false⟩ ⟨"call", true, []⟩
      "20240101_000000").2 [] rfl rfl rfl

/-- An observable event of the browser-fixture pipeline in `conftest.py`. -/
inductive FixtureEvent
  | launchBrowser
  | newContext
  | newPage
  | testBody (passed : Bool)
  | closePage
  | closeContext
  | closeBrowser
deriving DecidableEq

/-- The `context` fixture from `conftest.py`: `context =
browser.new_context(...)`, `yield context`, `context.close()`.  A pytest
yield fixture runs its teardown — the code after `yield` — when the test
ends, whatever the inner outcome; the embedding makes that explicit by
bracketing the inner trace. -/
def contextFixture (inner : List FixtureEvent) : List FixtureEvent :=
  [FixtureEvent.newContext] ++ inner ++ [FixtureEvent.closeContext]

/-- The `page` fixture from `conftest.py`: `page = context.new_page()`,
`yield page`, `page.close()`. -/
def pageFixture (inner : List FixtureEvent) : List FixtureEvent :=
  [FixtureEvent.newPage] ++ inner ++ [FixtureEvent.closePage]

/-- One test's execution under the fixture stack: the test body, which may
pass or fail, runs inside the page fixture inside the context fixture. -/
def runTest (passed : Bool) : List FixtureEvent :=
  contextFixture (pageFixture [FixtureEvent.testBody passed])

/-- The session-scoped `browser` fixture from `conftest.py`: `browser =
getattr(playwright_instance, name).launch(...)`, `yield browser`,
`browser.close()` — its teardown runs once, at session end. -/
def browserFixture (inner : List FixtureEvent) : List FixtureEvent :=
  [FixtureEvent.launchBrowser] ++ inner ++ [FixtureEvent.closeBrowser]

/-- A whole session: the session-scoped browser fixture wrapped around the
tests run in sequence, each with its own context and page. -/
def runSession (outcomes : List Bool) : List FixtureEvent :=
  browserFixture (outcomes.flatMap runTest)

/-- C8: whatever a test's outcome, its page and context are closed when it
ends — each test's trace is exactly open-context, open-page, body,
close-page, close-context, so neither handle outlives the test — and over a
whole session every opened context and page is matched by a close while the
browser is closed exactly once, as the session's final event. -/
theorem fixture_lifecycle (outcomes : List Bool) :
    (∀ passed, runTest passed =
      [FixtureEvent.newContext, FixtureEvent.newPage, FixtureEvent.testBody passed,
       FixtureEvent.closePage, FixtureEvent.closeContext]) ∧
    (runSession outcomes).count FixtureEvent.closeBrowser = 1 ∧
    (runSession outcomes).getLast? = some FixtureEvent.closeBrowser ∧
    (runSession outcomes).count FixtureEvent.newContext
        = (runSession outcomes).count FixtureEvent.closeContext ∧
    (runSession outcomes).count FixtureEvent.newPage
        = (runSession outcomes).count FixtureEvent.closePage := by
  refine ⟨fun passed => rfl, ?_, ?_, ?_, ?_⟩
  · simp [runSession, browserFixture]
    induction outcomes with
    | nil => rfl
    | cons b bs ih => cases b <;> simpa [runTest, contextFixture, pageFixture] using ih
  · show ((FixtureEvent.launchBrowser :: outcomes.flatMap runTest)
        ++ [FixtureEvent.closeBrowser]).getLast? = some FixtureEvent.closeBrowser
    exact List.getLast?_concat _
  · simp [runSession, browserFixture]
    induction outcomes with
    | nil => rfl
    | cons b bs ih => cases b <;> simpa [runTest, contextFixture, pageFixture] using ih
  · simp [runSession, browserFixture]
    induction outcomes with
    | nil => rfl
    | cons b bs ih => cases b <;> simpa [runTest, contextFixture, pageFixture] using ih
